import Mathlib

/-!
Shallow embedding of the KanMind task-board backend.

The repository contains two parallel implementations of the same domain:

* `V1` embeds `src/KanMind-Backend` (apps `auth_app`, `boards_app`, `tasks_app`);
* `V2` embeds `src/KanMind_Backend`.

Pure request handling is modelled as explicit state passing over a `Store`
(the database), with users, boards, tasks and comments held as lists of rows.
HTTP outcomes and field-scoped validation errors are collapsed into the
`Resp` status enumeration.  Opaque collaborators (password hashing, token
issuance) are modelled as identity-like functions, as the specification
treats them as external services.
-/

namespace KanMind

/-- HTTP-level outcome of a request, as produced by the DRF views:
2xx success statuses, 400 for serializer `ValidationError`s, 403 for
`PermissionDenied` / failed permission classes, 404 for missing objects and
`NotFound`, 500 for an uncaught exception inside the handler. -/
inductive Resp where
  | ok
  | created
  | noContent
  | badRequest
  | forbidden
  | notFound
  | serverError
deriving DecidableEq, Repr

/-- Python truthiness of an optional integer value: `if x:` is false both
when the value is absent (`None`) and when it is `0`. -/
def truthy : Option Nat → Bool
  | none => false
  | some n => n != 0

/-- Task status choices, from `tasks_app/models.py` `choices_status`. -/
def statusChoices : List String := ["to-do", "in-progress", "review", "done"]

/-- Task priority choices, from `tasks_app/models.py` `choices_priority`. -/
def priorityChoices : List String := ["low", "medium", "high"]

/-- The test `not content or not content.strip()` of
`TaskCommentSerializer.validate` (and the blank-content rule of the second
variant): a string strips to empty exactly when every character is
whitespace. -/
def blankContent (content : String) : Bool :=
  content.data.all (fun c => c.isWhitespace)

/-!  ## V1: the `KanMind-Backend` variant -/

namespace V1

/-- A Django `auth.User` row together with its one-to-one
`auth_app.models.UserProfile` (which carries `full_name`).  The password
hash is modelled as the stored credential string, since hashing internals
are an excluded collaborator. -/
structure User where
  id : Nat
  username : String
  email : String
  password : String
  fullName : String
deriving DecidableEq, Repr

/-- `boards_app.models.Board`: a title, one owner and a many-to-many member
set (`Meta.ordering = [-id]` is applied by the queryset model below). -/
structure Board where
  id : Nat
  title : String
  ownerId : Nat
  memberIds : List Nat
deriving DecidableEq, Repr

/-- `tasks_app.models.Task`: board FK (CASCADE), title, description,
status/priority choices, optional assignee and reviewer, optional due date
(modelled as a day number). -/
structure Task where
  id : Nat
  boardId : Nat
  title : String
  description : String
  status : String
  priority : String
  assigneeId : Option Nat
  reviewerId : Option Nat
  dueDate : Option Nat
deriving DecidableEq, Repr

/-- `tasks_app.models.TaskComment`: task FK (CASCADE), author, content and
server-assigned creation timestamp (modelled as a tick count). -/
structure TaskComment where
  id : Nat
  taskId : Nat
  authorId : Nat
  content : String
  createdAt : Nat
deriving DecidableEq, Repr

/-- The database: one list of rows per table, in insertion order. -/
structure Store where
  users : List User
  boards : List Board
  tasks : List Task
  comments : List TaskComment
deriving DecidableEq, Repr

def findUser (s : Store) (uid : Nat) : Option User :=
  s.users.find? (fun u => u.id = uid)

def findUserByEmail (s : Store) (email : String) : Option User :=
  s.users.find? (fun u => u.email = email)

def findBoard (s : Store) (bid : Nat) : Option Board :=
  s.boards.find? (fun b => b.id = bid)

def findTask (s : Store) (tid : Nat) : Option Task :=
  s.tasks.find? (fun t => t.id = tid)

def findComment (s : Store) (cid : Nat) : Option TaskComment :=
  s.comments.find? (fun c => c.id = cid)

/-- The check `board.owner == request.user or request.user in
board.members.all()`, shared by `IsBoardMemberOrOwner`
(`boards_app/api/permissions.py`), `IsBoardOwnerOrMember`
(`tasks_app/api/permissions.py`), `TaskSerializer._validate_board_access`
and the inline membership guards of `TaskCommentsViewSet`. -/
def isOwnerOrMember (b : Board) (uid : Nat) : Prop :=
  b.ownerId = uid ∨ uid ∈ b.memberIds

instance (b : Board) (uid : Nat) : Decidable (isOwnerOrMember b uid) := by
  unfold isOwnerOrMember; exact inferInstance

/-- `TaskViewSet.destroy` (the stock `DestroyModelMixin`), gated for the
`destroy` action by `IsBoardOwner | IsTaskOwner`: the object-level check
passes iff `obj.board.owner == request.user` or
`obj.assignee == request.user`.  Deleting a task cascades to its comments
(`TaskComment.task` has `on_delete=CASCADE`). -/
def taskDestroy (s : Store) (uid tid : Nat) : Resp × Store :=
  match findTask s tid with
  | none => (.notFound, s)
  | some t =>
    match findBoard s t.boardId with
    | none => (.serverError, s)
    | some b =>
      if b.ownerId = uid ∨ t.assigneeId = some uid then
        (.noContent,
          { s with
            tasks := s.tasks.filter (fun t2 => t2.id ≠ tid),
            comments := s.comments.filter (fun c => c.taskId ≠ tid) })
      else (.forbidden, s)

/-- Payload of `POST /api/tasks/` as consumed by `TaskSerializer`:
`board` is the raw id from `request.data`, `assignee_id` and `reviewer_id`
are the write-only related fields. -/
structure TaskCreateRequest where
  board : Option Nat
  title : String
  description : String
  status : String
  priority : String
  assigneeId : Option Nat
  reviewerId : Option Nat
  dueDate : Option Nat
deriving DecidableEq, Repr

/-- `IsBoardOwnerOrMember.has_permission` for `action == create`
(`tasks_app/api/permissions.py`): a falsy `board` id denies, a nonexistent
board raises `NotFound`, otherwise the caller must be the board owner or a
member.  Returns `none` when the permission passes. -/
def taskCreatePermission (s : Store) (uid : Nat) (boardField : Option Nat) :
    Option Resp :=
  if truthy boardField then
    match boardField with
    | none => some .forbidden
    | some bid =>
      match findBoard s bid with
      | none => some .notFound
      | some b => if isOwnerOrMember b uid then none else some .forbidden
  else some .forbidden

/-- `TaskSerializer._validate_user_role`: a supplied assignee or reviewer
must satisfy `board.members.filter(id=user.id).exists()` — membership in
the explicit member set only; the board owner is not treated specially. -/
def validateUserRole (b : Board) (who : Option Nat) : Prop :=
  ∀ a, who = some a → a ∈ b.memberIds

instance (b : Board) (who : Option Nat) : Decidable (validateUserRole b who) := by
  unfold validateUserRole
  cases who with
  | none => exact isTrue (by intro a h; cases h)
  | some a =>
    by_cases h : a ∈ b.memberIds
    · exact isTrue (by intro x hx; cases hx; exact h)
    · exact isFalse (by intro hall; exact h (hall a rfl))

/-- `POST /api/tasks/`: view-level permission, then serializer field
validation (`board` must resolve, `assignee_id`/`reviewer_id` must be
existing users, `status`/`priority` must be valid choices), then
`TaskSerializer.validate` (`_validate_board_access`,
`_validate_user_role` for assignee and reviewer; `_prevent_board_change`
is a no-op without an instance), then the row insert. -/
def taskCreate (s : Store) (uid : Nat) (req : TaskCreateRequest)
    (newId : Nat) : Resp × Store :=
  match taskCreatePermission s uid req.board with
  | some r => (r, s)
  | none =>
    match req.board with
    | none => (.badRequest, s)
    | some bid =>
      match findBoard s bid with
      | none => (.badRequest, s)
      | some b =>
        if ¬ (req.status ∈ statusChoices) then (.badRequest, s)
        else if ¬ (req.priority ∈ priorityChoices) then (.badRequest, s)
        else if ∃ a, req.assigneeId = some a ∧ findUser s a = none then
          (.badRequest, s)
        else if ∃ a, req.reviewerId = some a ∧ findUser s a = none then
          (.badRequest, s)
        else if ¬ isOwnerOrMember b uid then (.badRequest, s)
        else if ¬ validateUserRole b req.assigneeId then (.badRequest, s)
        else if ¬ validateUserRole b req.reviewerId then (.badRequest, s)
        else
          (.created,
            { s with
              tasks := s.tasks ++
                [⟨newId, bid, req.title, req.description, req.status,
                  req.priority, req.assigneeId, req.reviewerId, req.dueDate⟩] })

/-- Payload of `PATCH /api/tasks/{id}/`, a partial update: each field is
absent or present; for the nullable related fields the present value may
itself be null (`Option (Option Nat)`). -/
structure TaskUpdateRequest where
  board : Option Nat
  title : Option String
  status : Option String
  priority : Option String
  assigneeId : Option (Option Nat)
  reviewerId : Option (Option Nat)
deriving DecidableEq, Repr

/-- Apply a validated partial update to a task row
(`ModelSerializer.update` setting each validated attribute). -/
def applyTaskUpdate (t : Task) (req : TaskUpdateRequest) : Task :=
  { t with
    title := req.title.getD t.title,
    status := req.status.getD t.status,
    priority := req.priority.getD t.priority,
    assigneeId := req.assigneeId.getD t.assigneeId,
    reviewerId := req.reviewerId.getD t.reviewerId }

/-- `PATCH /api/tasks/{id}/`: `get_object` (404 then the
`IsBoardOwnerOrMember` object check against the task's board), serializer
field validation, then `TaskSerializer.validate`: `_get_board` resolves the
supplied board or falls back to the instance's board,
`_validate_user_role` checks a supplied non-null assignee/reviewer against
that board's member set, and `_prevent_board_change` rejects any supplied
board different from the instance's board. -/
def taskUpdate (s : Store) (uid tid : Nat) (req : TaskUpdateRequest) :
    Resp × Store :=
  match findTask s tid with
  | none => (.notFound, s)
  | some t =>
    match findBoard s t.boardId with
    | none => (.serverError, s)
    | some b =>
      if ¬ isOwnerOrMember b uid then (.forbidden, s)
      else if ∃ bid2, req.board = some bid2 ∧ findBoard s bid2 = none then
        (.badRequest, s)
      else if ∃ st, req.status = some st ∧ ¬ (st ∈ statusChoices) then
        (.badRequest, s)
      else if ∃ p, req.priority = some p ∧ ¬ (p ∈ priorityChoices) then
        (.badRequest, s)
      else if ∃ a, req.assigneeId.getD none = some a ∧ findUser s a = none then
        (.badRequest, s)
      else if ∃ a, req.reviewerId.getD none = some a ∧ findUser s a = none then
        (.badRequest, s)
      else
        let effBoard := match req.board with
          | some bid2 => (findBoard s bid2).getD b
          | none => b
        if ¬ validateUserRole effBoard (req.assigneeId.getD none) then
          (.badRequest, s)
        else if ¬ validateUserRole effBoard (req.reviewerId.getD none) then
          (.badRequest, s)
        else if ∃ bid2, req.board = some bid2 ∧ bid2 ≠ t.boardId then
          (.badRequest, s)
        else
          (.ok,
            { s with
              tasks := s.tasks.map (fun t2 =>
                if t2.id = tid then applyTaskUpdate t2 req else t2) })

/-- Creation-time ordering of comment rows, from
`TaskComment.Meta.ordering = [created_at]` (ascending). -/
def commentOrder (a b : TaskComment) : Prop := a.createdAt ≤ b.createdAt

instance : DecidableRel commentOrder := by
  unfold commentOrder; exact fun a b => inferInstance

/-- `GET /api/tasks/{task_pk}/comments/`
(`TaskCommentsViewSet.get_queryset`): 404 for a missing task, 403 unless
the caller is the board owner or a member, otherwise the task's comments in
`created_at` order. -/
def commentsList (s : Store) (uid tid : Nat) : Resp × List TaskComment :=
  match findTask s tid with
  | none => (.notFound, [])
  | some t =>
    match findBoard s t.boardId with
    | none => (.serverError, [])
    | some b =>
      if ¬ isOwnerOrMember b uid then (.forbidden, [])
      else
        (.ok, (s.comments.filter (fun c => c.taskId = tid)).insertionSort
          commentOrder)

/-- `POST /api/tasks/{task_pk}/comments/` (`TaskCommentsViewSet.create`):
404 for a missing task, an explicit 403 unless the caller is the board
owner or a member, 400 when the content is empty after trimming
(`TaskCommentSerializer.validate`), otherwise insert with
`author=request.user`. -/
def commentCreate (s : Store) (uid tid : Nat) (content : String)
    (newId now : Nat) : Resp × Store :=
  match findTask s tid with
  | none => (.notFound, s)
  | some t =>
    match findBoard s t.boardId with
    | none => (.serverError, s)
    | some b =>
      if ¬ isOwnerOrMember b uid then (.forbidden, s)
      else if blankContent content then (.badRequest, s)
      else
        (.created,
          { s with comments := s.comments ++ [⟨newId, tid, uid, content, now⟩] })

/-- `DELETE /api/tasks/{task_pk}/comments/{pk}/`
(`TaskCommentsViewSet.destroy`): `get_object` runs `get_queryset`, so the
missing-task 404 and the board-membership 403 fire first, then the comment
must belong to the task's comment queryset, then the author check of
`destroy` rejects every non-author with 403. -/
def commentDestroy (s : Store) (uid tid cid : Nat) : Resp × Store :=
  match findTask s tid with
  | none => (.notFound, s)
  | some t =>
    match findBoard s t.boardId with
    | none => (.serverError, s)
    | some b =>
      if ¬ isOwnerOrMember b uid then (.forbidden, s)
      else
        match findComment s cid with
        | none => (.notFound, s)
        | some c =>
          if c.taskId ≠ tid then (.notFound, s)
          else if c.authorId ≠ uid then (.forbidden, s)
          else
            (.noContent,
              { s with comments := s.comments.filter (fun c2 => c2.id ≠ cid) })

/-- Reverse-creation ordering of board rows, from
`Board.Meta.ordering = [-id]` (primary keys are assigned in increasing
creation order, so descending id is most-recently-created first). -/
def boardOrder (a b : Board) : Prop := b.id ≤ a.id

instance : DecidableRel boardOrder := by
  unfold boardOrder; exact fun a b => inferInstance

instance : IsTotal Board boardOrder :=
  ⟨fun a b => (le_total b.id a.id).imp id id⟩

instance : IsTrans Board boardOrder :=
  ⟨fun _ _ _ h1 h2 => le_trans h2 h1⟩

/-- `GET /api/boards/` (`BoardViewSet.get_queryset` for `list`):
`filter(owner=user) | filter(members=user)` with `.distinct()`, returned
under the model's `[-id]` ordering. -/
def boardList (s : Store) (uid : Nat) : List Board :=
  (s.boards.filter (fun b => isOwnerOrMember b uid)).insertionSort boardOrder

/-- `GET /api/boards/{pk}/`: the detail queryset is unfiltered, so a
missing board is 404; `IsBoardMemberOrOwner.has_object_permission` then
rejects callers that are neither owner nor member with 403. -/
def boardRetrieve (s : Store) (uid bid : Nat) : Resp :=
  match findBoard s bid with
  | none => .notFound
  | some b => if isOwnerOrMember b uid then .ok else .forbidden

/-- Payload of `PATCH /api/boards/{pk}/` for `BoardUpdateSerializer`:
optional title and optional full member-id list. -/
structure BoardUpdateRequest where
  title : Option String
  memberIds : Option (List Nat)
deriving DecidableEq, Repr

/-- `PATCH /api/boards/{pk}/` (`BoardViewSet.update`): `get_object` with
the `IsBoardMemberOrOwner` object check, then
`BoardUpdateSerializer.validate_members` rejects the payload when any
supplied member id has no user row, then `update` replaces the title
and/or the member set (`members.set` keeps each user once). -/
def boardUpdate (s : Store) (uid bid : Nat) (req : BoardUpdateRequest) :
    Resp × Store :=
  match findBoard s bid with
  | none => (.notFound, s)
  | some b =>
    if ¬ isOwnerOrMember b uid then (.forbidden, s)
    else if ∃ m ∈ req.memberIds.getD [], findUser s m = none then
      (.badRequest, s)
    else
      (.ok,
        { s with
          boards := s.boards.map (fun b2 =>
            if b2.id = bid then
              { b2 with
                title := req.title.getD b2.title,
                memberIds := (req.memberIds.getD b2.memberIds).dedup }
            else b2) })

/-- `DELETE /api/boards/{pk}/` (`BoardViewSet.destroy`): only the owner may
delete (`if board.owner != request.user: 403`); deletion cascades to the
board's tasks (`Task.board` has `on_delete=CASCADE`) and to their comments
(`TaskComment.task` has `on_delete=CASCADE`). -/
def boardDestroy (s : Store) (uid bid : Nat) : Resp × Store :=
  match findBoard s bid with
  | none => (.notFound, s)
  | some b =>
    if b.ownerId ≠ uid then (.forbidden, s)
    else
      (.noContent,
        { s with
          boards := s.boards.filter (fun b2 => b2.id ≠ bid),
          tasks := s.tasks.filter (fun t => t.boardId ≠ bid),
          comments := s.comments.filter (fun c =>
            match findTask s c.taskId with
            | some t => t.boardId ≠ bid
            | none => true) })

/-- `BoardListSerializer.get_member_count`
(`boards_app/api/serializers.py`): `obj.members.count()`, the size of the
explicit member set. -/
def getMemberCount (b : Board) : Nat := b.memberIds.length

/-- Result of the login endpoint: either an issued credential token with
the user data `{user_id, email, fullname}`, or a `ValidationError` with
its message.  Token issuance is an opaque collaborator
(`Token.objects.get_or_create` yields one token per user), modelled by the
user id. -/
inductive LoginResult where
  | success (token userId : Nat) (email fullname : String)
  | invalid (msg : String)
deriving DecidableEq, Repr

/-- `user.check_password(password)` with hashing abstracted away: the
stored credential must equal the submitted password. -/
def checkPassword (u : User) (pw : String) : Prop := u.password = pw

instance (u : User) (pw : String) : Decidable (checkPassword u pw) := by
  unfold checkPassword; exact inferInstance

/-- `POST /api/login/` (`LoginView.post` over `LoginSerializer`):
`validate_email` raises `Invalid Email.` when no user row has the email,
`LoginSerializer.get` raises `Invalid password.` when the credential check
fails, otherwise the view returns the token and
`{fullname, email, user_id}`. -/
def login (s : Store) (email pw : String) : LoginResult :=
  match findUserByEmail s email with
  | none => .invalid "Invalid Email."
  | some u =>
    if checkPassword u pw then .success u.id u.id u.email u.fullName
    else .invalid "Invalid password."

/-- Payload of `POST /api/registration/`. -/
structure RegistrationRequest where
  email : String
  password : String
  repeatedPassword : String
  fullname : String
deriving DecidableEq, Repr

/-- A model of `django.utils.text.slugify`, an external utility modelled
as the identity: the claims depend only on registration comparing the slug
of the fullname against existing usernames, never on the transformation
itself. -/
def slugify (x : String) : String := x

/-- `POST /api/registration/` (`RegistrationView.create` over
`RegistrationSerializer`): `validate_email` rejects an already-registered
email, `validate_fullname` rejects a fullname whose slug collides with an
existing username, `validate_password` rejects a password different from
`repeated_password`; all reject with a 400 `ValidationError` and no row is
written.  On success the user row and its profile are created. -/
def registration (s : Store) (req : RegistrationRequest) (newId : Nat) :
    Resp × Store :=
  if (findUserByEmail s req.email).isSome then (.badRequest, s)
  else if s.users.any (fun u => u.username = slugify req.fullname) then
    (.badRequest, s)
  else if req.password ≠ req.repeatedPassword then (.badRequest, s)
  else
    (.created,
      { s with
        users := s.users ++
          [⟨newId, slugify req.fullname, req.email, req.password,
            req.fullname⟩] })

end V1

/-!  ## V2: the `KanMind_Backend` variant -/

namespace V2

/-- Modelled from the spec: the custom user model of `KanMind_Backend`'s
`auth_app` is not in the source tree (only its serializers and views are).
Per the spec a user has a unique identifier, a unique email, a display
name and a credential; the views additionally read `username` (set to the
email at registration) and `fullname`. -/
structure User where
  id : Nat
  username : String
  email : String
  password : String
  fullname : String
deriving DecidableEq, Repr

/-- `boards_app.models.Board` of `KanMind_Backend`: title, owner FK,
member set and timestamps; its `Meta` declares no ordering. -/
structure Board where
  id : Nat
  title : String
  ownerId : Nat
  memberIds : List Nat
  createdAt : Nat
deriving DecidableEq, Repr

/-- Modelled from the spec: `KanMind_Backend`'s `tasks_app/models.py` is
not in the source tree (only its serializers, views and permissions are).
Per the spec a task has a board FK (immutable, cascade-deleted with the
board), title, description, status and priority choices, optional assignee
and reviewer and an optional due date; the serializers and the
`IsTaskCreatorOrBoardOwner` permission additionally read `created_by`.
The data model has no `task` attribute. -/
structure Task where
  id : Nat
  boardId : Nat
  title : String
  description : String
  status : String
  priority : String
  assigneeId : Option Nat
  reviewerId : Option Nat
  dueDate : Option Nat
  createdById : Nat
deriving DecidableEq, Repr

/-- Modelled from the spec: the `Comment` model of `KanMind_Backend` is
not in the source tree.  Per the spec a comment has a task FK
(cascade-deleted with the task), an author, text content and a
server-assigned creation timestamp. -/
structure Comment where
  id : Nat
  taskId : Nat
  authorId : Nat
  content : String
  createdAt : Nat
deriving DecidableEq, Repr

/-- The database of the second variant. -/
structure Store where
  users : List User
  boards : List Board
  tasks : List Task
  comments : List Comment
deriving DecidableEq, Repr

def findUser (s : Store) (uid : Nat) : Option User :=
  s.users.find? (fun u => u.id = uid)

def findUserByEmail (s : Store) (email : String) : Option User :=
  s.users.find? (fun u => u.email = email)

def findBoard (s : Store) (bid : Nat) : Option Board :=
  s.boards.find? (fun b => b.id = bid)

def findTask (s : Store) (tid : Nat) : Option Task :=
  s.tasks.find? (fun t => t.id = tid)

def findComment (s : Store) (cid : Nat) : Option Comment :=
  s.comments.find? (fun c => c.id = cid)

/-- The check `board.owner == request.user or request.user in
board.members.all()`, shared by `IsBoardOwnerOrMember`
(`boards_app/api/permissions.py`) and `IsBoardMember`
(`tasks_app/api/permissions.py`). -/
def isOwnerOrMember (b : Board) (uid : Nat) : Prop :=
  b.ownerId = uid ∨ uid ∈ b.memberIds

instance (b : Board) (uid : Nat) : Decidable (isOwnerOrMember b uid) := by
  unfold isOwnerOrMember; exact inferInstance

/-- Modelled from the spec: the task data model has no `task` attribute,
so the Python lookup `obj.task` on a `Task` object raises
`AttributeError`.  The absent attribute is the `none` value. -/
def Task.taskAttr (_ : Task) : Option Comment := none

/-- `IsBoardMember.has_object_permission`
(`tasks_app/api/permissions.py`): `board = obj.task.board; return
board.owner == request.user or request.user in board.members.all()`,
evaluated on a `Comment` object; `none` is a failed lookup (an uncaught
exception in the handler). -/
def isBoardMemberObjComment (s : Store) (uid : Nat) (c : Comment) :
    Option Bool :=
  match findTask s c.taskId with
  | none => none
  | some t =>
    match findBoard s t.boardId with
    | none => none
    | some b => some (decide (isOwnerOrMember b uid))

/-- `IsBoardMember.has_object_permission` evaluated on a `Task` object
(every `TaskViewSet` detail action routes through it): the `obj.task`
attribute lookup fails before a board can be read, so the check never
yields a boolean. -/
def isBoardMemberObjTask (s : Store) (uid : Nat) (t : Task) :
    Option Bool :=
  match t.taskAttr with
  | none => none
  | some c => isBoardMemberObjComment s uid c

/-- `DELETE /api/tasks/{pk}/` (`TaskViewSet.destroy` with permissions
`[IsAuthenticated, IsBoardMember, IsTaskCreatorOrBoardOwner]`):
`get_object` checks every permission's object hook; `IsBoardMember`'s hook
raises on a task object (HTTP 500); were it to pass,
`IsTaskCreatorOrBoardOwner` would admit exactly the task's creator and the
board owner, and deletion would cascade to the task's comments (modelled
from the spec). -/
def taskDestroy (s : Store) (uid tid : Nat) : Resp × Store :=
  match findTask s tid with
  | none => (.notFound, s)
  | some t =>
    match isBoardMemberObjTask s uid t with
    | none => (.serverError, s)
    | some m =>
      if ¬ m then (.forbidden, s)
      else
        match findBoard s t.boardId with
        | none => (.serverError, s)
        | some b =>
          if t.createdById = uid ∨ b.ownerId = uid then
            (.noContent,
              { s with
                tasks := s.tasks.filter (fun t2 => t2.id ≠ tid),
                comments := s.comments.filter (fun c => c.taskId ≠ tid) })
          else (.forbidden, s)

/-- Payload of `POST /api/tasks/` for `TaskCreateSerializer`: the board id
and the plain-integer `assignee_id`/`reviewer_id` write-only fields. -/
structure TaskCreateRequest where
  board : Option Nat
  title : String
  description : String
  status : String
  priority : String
  assigneeId : Option Nat
  reviewerId : Option Nat
  dueDate : Option Nat
deriving DecidableEq, Repr

/-- `TaskCreateSerializer` validation and `create`: the `board` model
field must resolve, `status`/`priority` must be valid choices (modelled
from the spec's enums), and `validate` checks a truthy
`assignee_id`/`reviewer_id`: the user must exist, and must be the board
owner or a board member.  `create` then inserts the row with
`created_by=request.user` and the raw id values. -/
def taskCreateSerializer (s : Store) (uid : Nat) (req : TaskCreateRequest)
    (newId : Nat) : Resp × Store :=
  match req.board with
  | none => (.badRequest, s)
  | some bid =>
    match findBoard s bid with
    | none => (.badRequest, s)
    | some b =>
      if ¬ (req.status ∈ statusChoices) then (.badRequest, s)
      else if ¬ (req.priority ∈ priorityChoices) then (.badRequest, s)
      else if truthy req.assigneeId ∧
          (findUser s (req.assigneeId.getD 0)).isNone then (.badRequest, s)
      else if truthy req.assigneeId ∧
          ¬ (b.ownerId = req.assigneeId.getD 0 ∨
             req.assigneeId.getD 0 ∈ b.memberIds) then (.badRequest, s)
      else if truthy req.reviewerId ∧
          (findUser s (req.reviewerId.getD 0)).isNone then (.badRequest, s)
      else if truthy req.reviewerId ∧
          ¬ (b.ownerId = req.reviewerId.getD 0 ∨
             req.reviewerId.getD 0 ∈ b.memberIds) then (.badRequest, s)
      else
        (.created,
          { s with
            tasks := s.tasks ++
              [⟨newId, bid, req.title, req.description, req.status,
                req.priority, req.assigneeId, req.reviewerId, req.dueDate,
                uid⟩] })

/-- `POST /api/tasks/` (`TaskViewSet.create`): the view-level
`IsBoardMember.has_permission` check only fires for a truthy `board` value
in the payload — a missing/nonexistent board or a caller who is neither
owner nor member is rejected; then `TaskCreateSerializer` runs. -/
def taskCreate (s : Store) (uid : Nat) (req : TaskCreateRequest)
    (newId : Nat) : Resp × Store :=
  if truthy req.board then
    match findBoard s (req.board.getD 0) with
    | none => (.forbidden, s)
    | some b =>
      if ¬ isOwnerOrMember b uid then (.forbidden, s)
      else taskCreateSerializer s uid req newId
  else taskCreateSerializer s uid req newId

/-- Payload of `PATCH /api/tasks/{pk}/`.  A `board` value may be supplied,
but `TaskUpdateSerializer` declares no `board` field, so it is never read;
for the integer id fields a null value and an absent key behave alike in
the source, so both are `none`. -/
structure TaskUpdateRequest where
  board : Option Nat
  title : Option String
  status : Option String
  priority : Option String
  assigneeId : Option Nat
  reviewerId : Option Nat
deriving DecidableEq, Repr

/-- `TaskUpdateSerializer` validation and `update` against an instance:
a supplied assignee/reviewer id must be an existing user that is the board
owner or a board member; `update` sets the validated fields — the task's
board is untouched because the serializer has no `board` field. -/
def taskUpdateSerializer (s : Store) (tid : Nat) (t : Task)
    (req : TaskUpdateRequest) : Resp × Store :=
  match findBoard s t.boardId with
  | none => (.serverError, s)
  | some b =>
    if ∃ st, req.status = some st ∧ ¬ (st ∈ statusChoices) then
      (.badRequest, s)
    else if ∃ p, req.priority = some p ∧ ¬ (p ∈ priorityChoices) then
      (.badRequest, s)
    else if ∃ a, req.assigneeId = some a ∧ findUser s a = none then
      (.badRequest, s)
    else if ∃ a, req.assigneeId = some a ∧
        ¬ (b.ownerId = a ∨ a ∈ b.memberIds) then (.badRequest, s)
    else if ∃ a, req.reviewerId = some a ∧ findUser s a = none then
      (.badRequest, s)
    else if ∃ a, req.reviewerId = some a ∧
        ¬ (b.ownerId = a ∨ a ∈ b.memberIds) then (.badRequest, s)
    else
      (.ok,
        { s with
          tasks := s.tasks.map (fun t2 =>
            if t2.id = tid then
              { t2 with
                title := req.title.getD t2.title,
                status := req.status.getD t2.status,
                priority := req.priority.getD t2.priority,
                assigneeId := req.assigneeId <|> t2.assigneeId,
                reviewerId := req.reviewerId <|> t2.reviewerId }
            else t2) })

/-- `PATCH /api/tasks/{pk}/` (`TaskViewSet.update`): `get_object` runs the
permission object hooks first, and `IsBoardMember`'s hook raises on every
task object (HTTP 500), so the serializer path is never reached. -/
def taskUpdate (s : Store) (uid tid : Nat) (req : TaskUpdateRequest) :
    Resp × Store :=
  match findTask s tid with
  | none => (.notFound, s)
  | some t =>
    match isBoardMemberObjTask s uid t with
    | none => (.serverError, s)
    | some m =>
      if ¬ m then (.forbidden, s)
      else taskUpdateSerializer s tid t req

/-- `GET /api/tasks/{task_pk}/comments/` (`CommentViewSet.list`): 404 for
a missing task, otherwise the task's comments ordered by `created_at` —
no board-membership check is performed (`IsBoardMember.has_permission`
returns `True` for GET and the handler touches no object hook). -/
def commentsList (s : Store) (_uid tid : Nat) : Resp × List Comment :=
  match findTask s tid with
  | none => (.notFound, [])
  | some _ =>
    (.ok, (s.comments.filter (fun c => c.taskId = tid)).insertionSort
      (fun a b => a.createdAt ≤ b.createdAt))

/-- `POST /api/tasks/{task_pk}/comments/` (`CommentViewSet.create`):
`IsBoardMember.has_permission` looks for a `board` key in the payload,
which a comment payload does not carry, so the membership check is
skipped; 404 for a missing task, 400 for content that is blank after
trimming (modelled from the spec's non-empty-content rule), otherwise the
comment is inserted with `author=request.user`. -/
def commentCreate (s : Store) (uid tid : Nat) (content : String)
    (newId now : Nat) : Resp × Store :=
  match findTask s tid with
  | none => (.notFound, s)
  | some _ =>
    if blankContent content then (.badRequest, s)
    else
      (.created,
        { s with comments := s.comments ++ [⟨newId, tid, uid, content, now⟩] })

/-- `DELETE /api/tasks/{task_pk}/comments/{pk}/`
(`CommentViewSet.destroy`): `get_object` resolves the comment inside the
task's queryset, `IsBoardMember`'s object hook requires the caller to be
the board owner or a member, `IsCommentAuthor` and the explicit author
check in `destroy` reject every non-author with 403. -/
def commentDestroy (s : Store) (uid tid cid : Nat) : Resp × Store :=
  match findComment s cid with
  | none => (.notFound, s)
  | some c =>
    if c.taskId ≠ tid then (.notFound, s)
    else
      match isBoardMemberObjComment s uid c with
      | none => (.serverError, s)
      | some m =>
        if ¬ m then (.forbidden, s)
        else if c.authorId ≠ uid then (.forbidden, s)
        else
          (.noContent,
            { s with comments := s.comments.filter (fun c2 => c2.id ≠ cid) })

/-- `GET /api/boards/` (`BoardViewSet.get_queryset`):
`filter(Q(owner=user) | Q(members=user)).distinct()`; neither the query
nor the model declares an ordering, so the rows come back in table
order. -/
def boardList (s : Store) (uid : Nat) : List Board :=
  s.boards.filter (fun b => isOwnerOrMember b uid)

/-- `GET /api/boards/{pk}/` (`BoardViewSet.retrieve`): `get_object` runs
on the visibility-filtered queryset, so a caller who is neither owner nor
member gets 404; `IsBoardOwnerOrMember`'s object hook then passes. -/
def boardRetrieve (s : Store) (uid bid : Nat) : Resp :=
  match findBoard s bid with
  | none => .notFound
  | some b =>
    if ¬ isOwnerOrMember b uid then .notFound
    else if ¬ isOwnerOrMember b uid then .forbidden
    else .ok

/-- Payload of `PATCH /api/boards/{pk}/` for `BoardUpdateSerializer`. -/
structure BoardUpdateRequest where
  title : Option String
  memberIds : Option (List Nat)
deriving DecidableEq, Repr

/-- `PATCH /api/boards/{pk}/` (`BoardViewSet.update`): the
visibility-filtered `get_object` (404 for outsiders) and the
`IsBoardOwnerOrMember` object hook, then `BoardUpdateSerializer.update`:
unknown member ids are silently dropped
(`User.objects.filter(id__in=members_ids)`), and a supplied member list
replaces the set. -/
def boardUpdate (s : Store) (uid bid : Nat) (req : BoardUpdateRequest) :
    Resp × Store :=
  match findBoard s bid with
  | none => (.notFound, s)
  | some b =>
    if ¬ isOwnerOrMember b uid then (.notFound, s)
    else
      (.ok,
        { s with
          boards := s.boards.map (fun b2 =>
            if b2.id = bid then
              { b2 with
                title := req.title.getD b2.title,
                memberIds :=
                  match req.memberIds with
                  | some ms =>
                    (ms.filter (fun m => (findUser s m).isSome)).dedup
                  | none => b2.memberIds }
            else b2) })

/-- `DELETE /api/boards/{pk}/` (`BoardViewSet.destroy` with permissions
`[IsAuthenticated, IsBoardOwner]`): outsiders fall out of the filtered
queryset (404), a member who is not the owner fails the `IsBoardOwner`
object hook (403), the owner deletes the board; tasks referencing it and
their comments are cascade-deleted (modelled from the spec, the task
models being absent from the source tree). -/
def boardDestroy (s : Store) (uid bid : Nat) : Resp × Store :=
  match findBoard s bid with
  | none => (.notFound, s)
  | some b =>
    if ¬ isOwnerOrMember b uid then (.notFound, s)
    else if b.ownerId ≠ uid then (.forbidden, s)
    else
      (.noContent,
        { s with
          boards := s.boards.filter (fun b2 => b2.id ≠ bid),
          tasks := s.tasks.filter (fun t => t.boardId ≠ bid),
          comments := s.comments.filter (fun c =>
            match findTask s c.taskId with
            | some t => t.boardId ≠ bid
            | none => true) })

/-- `Board.member_count` (`boards_app/models.py`):
`self.members.count() + 1`, the owner counted on top of the member
set. -/
def memberCount (b : Board) : Nat := b.memberIds.length + 1

/-- `POST /api/login/` (`auth_app/api/views.py login`): a missing user row
for the email and a failed credential check both answer with the same
`Invalid credentials.` message; on success the view returns the token and
`{fullname, email, user_id}`. -/
def login (s : Store) (email pw : String) : V1.LoginResult :=
  match findUserByEmail s email with
  | none => .invalid "Invalid credentials."
  | some u =>
    if u.password = pw then .success u.id u.id u.email u.fullname
    else .invalid "Invalid credentials."

/-- `POST /api/registration/` (`RegistrationSerializer`): the `password`
field requires at least 8 characters, `validate` rejects
`password != repeated_password`, and the unique-email constraint of the
user model (modelled from the spec, the model being absent from the
source tree) rejects an already-registered email; any rejection is a 400
with no row written.  On success the user is created with
`username=email`. -/
def registration (s : Store) (req : V1.RegistrationRequest) (newId : Nat) :
    Resp × Store :=
  if req.password.length < 8 then (.badRequest, s)
  else if req.password ≠ req.repeatedPassword then (.badRequest, s)
  else if (findUserByEmail s req.email).isSome then (.badRequest, s)
  else
    (.created,
      { s with
        users := s.users ++
          [⟨newId, req.email, req.email, req.password, req.fullname⟩] })

end V2

/-!  ## Concrete stores used by the counterexamples and witnesses -/

/-- Board `1` of the example scenario: owner `10`, members `20` and `30`. -/
def exBoard1 : V1.Board := ⟨1, "Sprint 1", 10, [20, 30]⟩

/-- Board `2` of the example scenario: owner `10`, member `20` only. -/
def exBoard1b : V1.Board := ⟨2, "Sprint 2", 10, [20]⟩

/-- The example task on board `1`, assigned to member `30`. -/
def exTask1 : V1.Task :=
  ⟨1, 1, "Fix the build", "", "to-do", "medium", some 30, none, none⟩

/-- The example comment on task `1`, written by member `20`. -/
def exComment1 : V1.TaskComment := ⟨1, 1, 20, "looks good", 5⟩

/-- A small `V1` database: owner `10`, members `20` and `30` on board `1`
(board `2` has only member `20`), a task assigned to `30` created on board
`1`, one comment by `20`, and an unrelated user `99`. -/
def exStore1 : V1.Store :=
  ⟨[⟨10, "olivia", "olivia@kanmind.test", "pw-olivia", "Olivia Owner"⟩,
    ⟨20, "mara", "mara@kanmind.test", "pw-mara", "Mara Member"⟩,
    ⟨30, "ansel", "ansel@kanmind.test", "pw-ansel", "Ansel Assignee"⟩,
    ⟨99, "oskar", "oskar@kanmind.test", "pw-oskar", "Oskar Outsider"⟩],
   [exBoard1, exBoard1b],
   [exTask1],
   [exComment1]⟩

/-- Board `1` of the `V2` scenario. -/
def exBoard2 : V2.Board := ⟨1, "Sprint 1", 10, [20, 30], 100⟩

/-- Board `2` of the `V2` scenario. -/
def exBoard2b : V2.Board := ⟨2, "Sprint 2", 10, [20], 200⟩

/-- The `V2` example task on board `1`, created by owner `10` and assigned
to member `30`. -/
def exTask2 : V2.Task :=
  ⟨1, 1, "Fix the build", "", "to-do", "medium", some 30, none, none, 10⟩

/-- The `V2` example comment on task `1`, written by member `20`. -/
def exComment2 : V2.Comment := ⟨1, 1, 20, "looks good", 5⟩

/-- The same scenario as a `V2` database; the task on board `1` was
created by the owner `10` and is assigned to `30`. -/
def exStore2 : V2.Store :=
  ⟨[⟨10, "olivia@kanmind.test", "olivia@kanmind.test", "pw-olivia1", "Olivia Owner"⟩,
    ⟨20, "mara@kanmind.test", "mara@kanmind.test", "pw-mara22", "Mara Member"⟩,
    ⟨30, "ansel@kanmind.test", "ansel@kanmind.test", "pw-ansel3", "Ansel Assignee"⟩,
    ⟨99, "oskar@kanmind.test", "oskar@kanmind.test", "pw-oskar4", "Oskar Outsider"⟩],
   [exBoard2, exBoard2b],
   [exTask2],
   [exComment2]⟩

end KanMind

open KanMind

/-!  ## Claim theorems -/

/-- C1, counterexample: in the `KanMind_Backend` variant, user `30` is the
assignee of task `1` (and a board member, but neither the board owner nor
the task's creator), yet the delete request does not succeed as the claim
requires — it answers with a server error, which is also not the Forbidden
rejection the claim allows for other users. -/
theorem c1_delete_task_counterexample :
    (V2.findTask exStore2 1).map (fun t => t.assigneeId) = some (some 30) ∧
    (V2.findBoard exStore2 1).map (fun b => b.ownerId) = some 10 ∧
    (V2.taskDestroy exStore2 30 1).1 = Resp.serverError ∧
    Resp.serverError ≠ Resp.noContent := by decide

/-- C1, amended: in the `KanMind-Backend` variant the delete-task
operation succeeds exactly when the caller is the board owner or the
task's assignee and is rejected as Forbidden for every other user; in the
`KanMind_Backend` variant no delete of an existing task reaches its
creator-or-board-owner gate — the `IsBoardMember` object check reads the
missing `task` attribute of the task, so every delete request fails with a
server error and the store is unchanged. -/
theorem c1_delete_task_amended
    (s1 : V1.Store) (uid1 : Nat) (t1 : V1.Task) (b1 : V1.Board)
    (s2 : V2.Store) (uid2 tid2 : Nat) (t2 : V2.Task)
    (h1 : V1.findTask s1 t1.id = some t1)
    (h2 : V1.findBoard s1 t1.boardId = some b1)
    (h3 : V2.findTask s2 tid2 = some t2) :
    ((V1.taskDestroy s1 uid1 t1.id).1 = Resp.noContent ↔
      (b1.ownerId = uid1 ∨ t1.assigneeId = some uid1)) ∧
    (¬ (b1.ownerId = uid1 ∨ t1.assigneeId = some uid1) →
      V1.taskDestroy s1 uid1 t1.id = (Resp.forbidden, s1)) ∧
    V2.taskDestroy s2 uid2 tid2 = (Resp.serverError, s2) := by
  simp only [V1.taskDestroy, V2.taskDestroy, h1, h2, h3,
    V2.isBoardMemberObjTask, V2.Task.taskAttr]
  refine ⟨?_, ?_, trivial⟩
  · split_ifs with h
    · simp [h]
    · simp [h]
  · intro h
    simp [h]

/-- C1, witness for the amended theorem: on the example stores, member
`30` (the assignee) may delete task `1` in the first variant, and any
caller's delete of task `1` in the second variant answers with a server
error. -/
theorem c1_delete_task_witness :
    ((V1.taskDestroy exStore1 30 exTask1.id).1 = Resp.noContent ↔
      (exBoard1.ownerId = 30 ∨ exTask1.assigneeId = some 30)) ∧
    (¬ (exBoard1.ownerId = 30 ∨ exTask1.assigneeId = some 30) →
      V1.taskDestroy exStore1 30 exTask1.id = (Resp.forbidden, exStore1)) ∧
    V2.taskDestroy exStore2 77 1 = (Resp.serverError, exStore2) :=
  c1_delete_task_amended exStore1 30 exTask1 exBoard1 exStore2 77 1 exTask2
    (by decide) (by decide) (by decide)

/-- Unfolding lemma: `_validate_user_role` on a supplied user is exactly
membership in the board's explicit member set. -/
theorem validateUserRole_some (b : V1.Board) (a : Nat) :
    V1.validateUserRole b (some a) ↔ a ∈ b.memberIds := by
  unfold V1.validateUserRole
  constructor
  · intro h
    exact h a rfl
  · intro h x hx
    cases hx
    exact h

/-- Unfolding lemma: `_validate_user_role` vacuously passes when no user
is supplied. -/
theorem validateUserRole_none (b : V1.Board) : V1.validateUserRole b none := by
  intro a h
  cases h

/-- C2, counterexample: in the `KanMind-Backend` variant, the board owner
`10` (who is not in the member set) creates a task on their own board
naming themselves assignee — the claim requires success, but the request
fails with a ValidationError. -/
theorem c2_assignee_validation_counterexample :
    (V1.findBoard exStore1 1).map (fun b => b.ownerId) = some 10 ∧
    (V1.findBoard exStore1 1).map (fun b => decide (10 ∈ b.memberIds)) =
      some false ∧
    V1.taskCreate exStore1 10
      ⟨some 1, "Plan sprint", "", "to-do", "medium", some 10, none, none⟩ 7 =
      (Resp.badRequest, exStore1) := by decide

/-- C2, amended: for an otherwise valid creation request naming an
existing user as assignee (and likewise as reviewer), the
`KanMind-Backend` variant succeeds iff that user is in the board's
explicit member set (the owner is rejected unless also listed as a
member), while the `KanMind_Backend` variant succeeds iff that user is
the board owner or a member. -/
theorem c2_assignee_validation_amended
    (s1 : V1.Store) (uid1 a1 bid1 nid1 : Nat) (b1 : V1.Board)
    (s2 : V2.Store) (uid2 a2 bid2 nid2 : Nat) (b2 : V2.Board)
    (ti de : String)
    (h1 : V1.findBoard s1 bid1 = some b1) (hbid1 : bid1 ≠ 0)
    (hm1 : V1.isOwnerOrMember b1 uid1)
    (hu1 : (V1.findUser s1 a1).isSome = true)
    (h2 : V2.findBoard s2 bid2 = some b2) (hbid2 : bid2 ≠ 0)
    (hm2 : V2.isOwnerOrMember b2 uid2)
    (hu2 : (V2.findUser s2 a2).isSome = true) (ha2 : a2 ≠ 0) :
    ((V1.taskCreate s1 uid1
        ⟨some bid1, ti, de, "to-do", "medium", some a1, none, none⟩ nid1).1 =
      Resp.created ↔ a1 ∈ b1.memberIds) ∧
    ((V1.taskCreate s1 uid1
        ⟨some bid1, ti, de, "to-do", "medium", none, some a1, none⟩ nid1).1 =
      Resp.created ↔ a1 ∈ b1.memberIds) ∧
    ((V2.taskCreate s2 uid2
        ⟨some bid2, ti, de, "to-do", "medium", some a2, none, none⟩ nid2).1 =
      Resp.created ↔ (b2.ownerId = a2 ∨ a2 ∈ b2.memberIds)) ∧
    ((V2.taskCreate s2 uid2
        ⟨some bid2, ti, de, "to-do", "medium", none, some a2, none⟩ nid2).1 =
      Resp.created ↔ (b2.ownerId = a2 ∨ a2 ∈ b2.memberIds)) := by
  rw [Option.isSome_iff_exists] at hu1 hu2
  obtain ⟨u1, hu1⟩ := hu1
  obtain ⟨u2, hu2⟩ := hu2
  refine ⟨?_, ?_, ?_, ?_⟩
  · by_cases h : a1 ∈ b1.memberIds <;>
      simp [V1.taskCreate, V1.taskCreatePermission, truthy, h1, hm1, hbid1,
        hu1, statusChoices, priorityChoices, validateUserRole_some,
        validateUserRole_none, h]
  · by_cases h : a1 ∈ b1.memberIds <;>
      simp [V1.taskCreate, V1.taskCreatePermission, truthy, h1, hm1, hbid1,
        hu1, statusChoices, priorityChoices, validateUserRole_some,
        validateUserRole_none, h]
  · by_cases h : b2.ownerId = a2 ∨ a2 ∈ b2.memberIds <;>
      simp [V2.taskCreate, V2.taskCreateSerializer, truthy, h2, hm2, hbid2,
        ha2, hu2, statusChoices, priorityChoices, h]
  · by_cases h : b2.ownerId = a2 ∨ a2 ∈ b2.memberIds <;>
      simp [V2.taskCreate, V2.taskCreateSerializer, truthy, h2, hm2, hbid2,
        ha2, hu2, statusChoices, priorityChoices, h]

/-- C2, witness for the amended theorem: on the example stores the member
`20` is accepted as assignee in the first variant, and in the second
variant the owner-or-member rule governs assignee `10` (the owner). -/
theorem c2_assignee_validation_witness :
    ((V1.taskCreate exStore1 10
        ⟨some 1, "Plan sprint", "", "to-do", "medium", some 20, none, none⟩ 7).1 =
      Resp.created ↔ (20 : Nat) ∈ exBoard1.memberIds) ∧
    ((V1.taskCreate exStore1 10
        ⟨some 1, "Plan sprint", "", "to-do", "medium", none, some 20, none⟩ 7).1 =
      Resp.created ↔ (20 : Nat) ∈ exBoard1.memberIds) ∧
    ((V2.taskCreate exStore2 10
        ⟨some 1, "Plan sprint", "", "to-do", "medium", some 10, none, none⟩ 7).1 =
      Resp.created ↔ (exBoard2.ownerId = 10 ∨ (10 : Nat) ∈ exBoard2.memberIds)) ∧
    ((V2.taskCreate exStore2 10
        ⟨some 1, "Plan sprint", "", "to-do", "medium", none, some 10, none⟩ 7).1 =
      Resp.created ↔ (exBoard2.ownerId = 10 ∨ (10 : Nat) ∈ exBoard2.memberIds)) :=
  c2_assignee_validation_amended exStore1 10 20 1 7 exBoard1 exStore2 10 10 1 7
    exBoard2 "Plan sprint" "" (by decide) (by decide) (by decide) (by decide)
    (by decide) (by decide) (by decide) (by decide) (by decide)

/-- C3, counterexample: in the `KanMind_Backend` variant, the board owner
`10` sends an update for task `1` (which lives on board `1`) supplying
board `2` — the claim requires a ValidationError, but the request fails
with a server error instead (the task's board is indeed unchanged, the
store being untouched). -/
theorem c3_board_immutable_counterexample :
    (V2.findTask exStore2 1).map (fun t => t.boardId) = some 1 ∧
    V2.taskUpdate exStore2 10 1 ⟨some 2, none, none, none, none, none⟩ =
      (Resp.serverError, exStore2) ∧
    Resp.serverError ≠ Resp.badRequest := by decide

/-- C3, amended: in the `KanMind-Backend` variant, every update request
that supplies a board different from the task's current board is rejected
with the store unchanged, regardless of which user performs it — with a
ValidationError when the caller passes the owner-or-member permission
check, and with Forbidden (before validation runs) for every other
caller; in the `KanMind_Backend` variant every update of an existing task
fails with a server error before validation (the `IsBoardMember` object
check reads the missing `task` attribute), likewise leaving the task's
board unchanged — it never fails with a ValidationError over the board
field, whose value its update serializer does not even declare. -/
theorem c3_board_immutable_amended
    (s1 : V1.Store) (uid1 tid1 bid2 : Nat) (t1 : V1.Task) (b1 : V1.Board)
    (req1 : V1.TaskUpdateRequest)
    (s2 : V2.Store) (uid2 tid2 : Nat) (t2 : V2.Task)
    (req2 : V2.TaskUpdateRequest)
    (ht1 : V1.findTask s1 tid1 = some t1)
    (hb1 : V1.findBoard s1 t1.boardId = some b1)
    (hreq1 : req1.board = some bid2) (hne : bid2 ≠ t1.boardId)
    (ht2 : V2.findTask s2 tid2 = some t2) :
    (V1.isOwnerOrMember b1 uid1 →
      V1.taskUpdate s1 uid1 tid1 req1 = (Resp.badRequest, s1)) ∧
    (¬ V1.isOwnerOrMember b1 uid1 →
      V1.taskUpdate s1 uid1 tid1 req1 = (Resp.forbidden, s1)) ∧
    V2.taskUpdate s2 uid2 tid2 req2 = (Resp.serverError, s2) := by
  refine ⟨?_, ?_, ?_⟩
  · intro hm1
    simp only [V1.taskUpdate, ht1, hb1, if_neg (not_not_intro hm1)]
    split_ifs with h1 h2 h3 h4 h5 h6 h7 h8
    all_goals try rfl
    exact absurd ⟨bid2, hreq1, hne⟩ h8
  · intro hm1
    simp [V1.taskUpdate, ht1, hb1, hm1]
  · simp only [V2.taskUpdate, ht2, V2.isBoardMemberObjTask, V2.Task.taskAttr]

/-- C3, witness for the amended theorem, applied twice on the example
stores: the owner `10` supplying board `2` for task `1` (the
permitted-caller branch, a ValidationError) and the outsider `99` (the
Forbidden branch); any caller gets the server error in the second
variant. -/
theorem c3_board_immutable_witness :
    ((V1.isOwnerOrMember exBoard1 10 →
      V1.taskUpdate exStore1 10 1 ⟨some 2, none, none, none, none, none⟩ =
        (Resp.badRequest, exStore1)) ∧
    (¬ V1.isOwnerOrMember exBoard1 10 →
      V1.taskUpdate exStore1 10 1 ⟨some 2, none, none, none, none, none⟩ =
        (Resp.forbidden, exStore1)) ∧
    V2.taskUpdate exStore2 10 1 ⟨some 2, none, none, none, none, none⟩ =
      (Resp.serverError, exStore2)) ∧
    ((V1.isOwnerOrMember exBoard1 99 →
      V1.taskUpdate exStore1 99 1 ⟨some 2, none, none, none, none, none⟩ =
        (Resp.badRequest, exStore1)) ∧
    (¬ V1.isOwnerOrMember exBoard1 99 →
      V1.taskUpdate exStore1 99 1 ⟨some 2, none, none, none, none, none⟩ =
        (Resp.forbidden, exStore1)) ∧
    V2.taskUpdate exStore2 99 1 ⟨some 2, none, none, none, none, none⟩ =
      (Resp.serverError, exStore2)) :=
  ⟨c3_board_immutable_amended exStore1 10 1 2 exTask1 exBoard1
    ⟨some 2, none, none, none, none, none⟩ exStore2 10 1 exTask2
    ⟨some 2, none, none, none, none, none⟩ (by decide) (by decide) (by decide)
    (by decide) (by decide),
   c3_board_immutable_amended exStore1 99 1 2 exTask1 exBoard1
    ⟨some 2, none, none, none, none, none⟩ exStore2 99 1 exTask2
    ⟨some 2, none, none, none, none, none⟩ (by decide) (by decide) (by decide)
    (by decide) (by decide)⟩

/-- C4, counterexample: in the `KanMind_Backend` variant, user `99` is
neither the owner nor a member of board `1`, yet both listing the comments
of its task `1` and creating a comment on that task succeed — the claim
requires both to be rejected. -/
theorem c4_comment_permissions_counterexample :
    ¬ (exBoard2.ownerId = 99 ∨ (99 : Nat) ∈ exBoard2.memberIds) ∧
    (V2.commentsList exStore2 99 1).1 = Resp.ok ∧
    (V2.commentCreate exStore2 99 1 "drive-by comment" 7 7).1 =
      Resp.created := by decide

/-- C4, amended: in the `KanMind-Backend` variant, listing and creating
comments succeed exactly for the board owner or a member and are rejected
as Forbidden otherwise; in the `KanMind_Backend` variant any authenticated
user can list and create comments on an existing task (no membership check
is reached).  In both variants, a caller who is not the comment's author
is rejected as Forbidden when deleting. -/
theorem c4_comment_permissions_amended
    (s1 : V1.Store) (uid1 tid1 cid1 nid1 now1 : Nat) (t1 : V1.Task)
    (b1 : V1.Board) (c1 : V1.TaskComment) (content1 : String)
    (s2 : V2.Store) (uid2 tid2 cid2 nid2 now2 : Nat) (t2 : V2.Task)
    (b2 : V2.Board) (c2 : V2.Comment) (content2 : String)
    (ht1 : V1.findTask s1 tid1 = some t1)
    (hb1 : V1.findBoard s1 t1.boardId = some b1)
    (hcontent1 : blankContent content1 = false)
    (hc1 : V1.findComment s1 cid1 = some c1)
    (hct1 : c1.taskId = tid1) (hna1 : c1.authorId ≠ uid1)
    (ht2 : V2.findTask s2 tid2 = some t2)
    (hb2 : V2.findBoard s2 t2.boardId = some b2)
    (hcontent2 : blankContent content2 = false)
    (hc2 : V2.findComment s2 cid2 = some c2)
    (hct2 : c2.taskId = tid2) (hna2 : c2.authorId ≠ uid2) :
    ((V1.commentsList s1 uid1 tid1).1 = Resp.ok ↔
      V1.isOwnerOrMember b1 uid1) ∧
    (¬ V1.isOwnerOrMember b1 uid1 →
      (V1.commentsList s1 uid1 tid1).1 = Resp.forbidden) ∧
    ((V1.commentCreate s1 uid1 tid1 content1 nid1 now1).1 = Resp.created ↔
      V1.isOwnerOrMember b1 uid1) ∧
    (¬ V1.isOwnerOrMember b1 uid1 →
      V1.commentCreate s1 uid1 tid1 content1 nid1 now1 =
        (Resp.forbidden, s1)) ∧
    V1.commentDestroy s1 uid1 tid1 cid1 = (Resp.forbidden, s1) ∧
    (V2.commentsList s2 uid2 tid2).1 = Resp.ok ∧
    (V2.commentCreate s2 uid2 tid2 content2 nid2 now2).1 = Resp.created ∧
    V2.commentDestroy s2 uid2 tid2 cid2 = (Resp.forbidden, s2) := by
  refine ⟨?_, ?_, ?_, ?_, ?_, ?_, ?_, ?_⟩
  · by_cases h : V1.isOwnerOrMember b1 uid1 <;>
      simp [V1.commentsList, ht1, hb1, h]
  · intro h
    simp [V1.commentsList, ht1, hb1, h]
  · by_cases h : V1.isOwnerOrMember b1 uid1 <;>
      simp [V1.commentCreate, ht1, hb1, h, hcontent1]
  · intro h
    simp [V1.commentCreate, ht1, hb1, h]
  · by_cases h : V1.isOwnerOrMember b1 uid1 <;>
      simp [V1.commentDestroy, ht1, hb1, h, hc1, hct1, hna1]
  · simp [V2.commentsList, ht2]
  · simp [V2.commentCreate, ht2, hcontent2]
  · subst hct2
    by_cases h : V2.isOwnerOrMember b2 uid2 <;>
      simp [V2.commentDestroy, hc2, V2.isBoardMemberObjComment, ht2, hb2, h,
        hna2]

/-- C4, witness for the amended theorem on the example stores: outsider
`99` against the first variant's comment endpoints, and member `30` (not
the author of comment `1`) attempting the deletes. -/
theorem c4_comment_permissions_witness :
    ((V1.commentsList exStore1 30 1).1 = Resp.ok ↔
      V1.isOwnerOrMember exBoard1 30) ∧
    (¬ V1.isOwnerOrMember exBoard1 30 →
      (V1.commentsList exStore1 30 1).1 = Resp.forbidden) ∧
    ((V1.commentCreate exStore1 30 1 "ping" 7 7).1 = Resp.created ↔
      V1.isOwnerOrMember exBoard1 30) ∧
    (¬ V1.isOwnerOrMember exBoard1 30 →
      V1.commentCreate exStore1 30 1 "ping" 7 7 = (Resp.forbidden, exStore1)) ∧
    V1.commentDestroy exStore1 30 1 1 = (Resp.forbidden, exStore1) ∧
    (V2.commentsList exStore2 30 1).1 = Resp.ok ∧
    (V2.commentCreate exStore2 30 1 "ping" 7 7).1 = Resp.created ∧
    V2.commentDestroy exStore2 30 1 1 = (Resp.forbidden, exStore2) :=
  c4_comment_permissions_amended exStore1 30 1 1 7 7 exTask1 exBoard1
    exComment1 "ping" exStore2 30 1 1 7 7 exTask2 exBoard2 exComment2 "ping"
    (by decide) (by decide) (by decide) (by decide) (by decide) (by decide)
    (by decide) (by decide) (by decide) (by decide) (by decide) (by decide)

/-- C5: in both variants, retrieve-board and update-board are permitted
exactly for the board owner or a member; every other user is rejected
(Forbidden in the `KanMind-Backend` variant, NotFound in the
`KanMind_Backend` variant, whose queryset hides invisible boards), with
the store unchanged.  A permitted update is an OK or — in the first
variant, whose member validation can reject unknown ids — a
ValidationError, never a rejection. -/
theorem c5_board_access
    (s1 : V1.Store) (uid1 bid1 : Nat) (b1 : V1.Board)
    (req1 : V1.BoardUpdateRequest)
    (s2 : V2.Store) (uid2 bid2 : Nat) (b2 : V2.Board)
    (req2 : V2.BoardUpdateRequest)
    (h1 : V1.findBoard s1 bid1 = some b1)
    (h2 : V2.findBoard s2 bid2 = some b2) :
    (V1.boardRetrieve s1 uid1 bid1 = Resp.ok ↔ V1.isOwnerOrMember b1 uid1) ∧
    (¬ V1.isOwnerOrMember b1 uid1 →
      V1.boardRetrieve s1 uid1 bid1 = Resp.forbidden) ∧
    (V1.isOwnerOrMember b1 uid1 →
      (V1.boardUpdate s1 uid1 bid1 req1).1 = Resp.ok ∨
      (V1.boardUpdate s1 uid1 bid1 req1).1 = Resp.badRequest) ∧
    (¬ V1.isOwnerOrMember b1 uid1 →
      V1.boardUpdate s1 uid1 bid1 req1 = (Resp.forbidden, s1)) ∧
    (V2.boardRetrieve s2 uid2 bid2 = Resp.ok ↔ V2.isOwnerOrMember b2 uid2) ∧
    (¬ V2.isOwnerOrMember b2 uid2 →
      V2.boardRetrieve s2 uid2 bid2 = Resp.notFound) ∧
    ((V2.boardUpdate s2 uid2 bid2 req2).1 = Resp.ok ↔
      V2.isOwnerOrMember b2 uid2) ∧
    (¬ V2.isOwnerOrMember b2 uid2 →
      V2.boardUpdate s2 uid2 bid2 req2 = (Resp.notFound, s2)) := by
  refine ⟨?_, ?_, ?_, ?_, ?_, ?_, ?_, ?_⟩
  · by_cases h : V1.isOwnerOrMember b1 uid1 <;>
      simp [V1.boardRetrieve, h1, h]
  · intro h
    simp [V1.boardRetrieve, h1, h]
  · intro h
    simp only [V1.boardUpdate, h1, if_neg (not_not_intro h)]
    split_ifs with hv
    · exact Or.inr rfl
    · exact Or.inl rfl
  · intro h
    simp [V1.boardUpdate, h1, h]
  · by_cases h : V2.isOwnerOrMember b2 uid2 <;>
      simp [V2.boardRetrieve, h2, h]
  · intro h
    simp [V2.boardRetrieve, h2, h]
  · by_cases h : V2.isOwnerOrMember b2 uid2 <;>
      simp [V2.boardUpdate, h2, h]
  · intro h
    simp [V2.boardUpdate, h2, h]

/-- C5, witness: on the example stores, member `20` and outsider `99`
against board `1` of each variant. -/
theorem c5_board_access_witness :
    (V1.boardRetrieve exStore1 99 1 = Resp.ok ↔
      V1.isOwnerOrMember exBoard1 99) ∧
    (¬ V1.isOwnerOrMember exBoard1 99 →
      V1.boardRetrieve exStore1 99 1 = Resp.forbidden) ∧
    (V1.isOwnerOrMember exBoard1 99 →
      (V1.boardUpdate exStore1 99 1 ⟨some "Renamed", none⟩).1 = Resp.ok ∨
      (V1.boardUpdate exStore1 99 1 ⟨some "Renamed", none⟩).1 =
        Resp.badRequest) ∧
    (¬ V1.isOwnerOrMember exBoard1 99 →
      V1.boardUpdate exStore1 99 1 ⟨some "Renamed", none⟩ =
        (Resp.forbidden, exStore1)) ∧
    (V2.boardRetrieve exStore2 99 1 = Resp.ok ↔
      V2.isOwnerOrMember exBoard2 99) ∧
    (¬ V2.isOwnerOrMember exBoard2 99 →
      V2.boardRetrieve exStore2 99 1 = Resp.notFound) ∧
    ((V2.boardUpdate exStore2 99 1 ⟨some "Renamed", none⟩).1 = Resp.ok ↔
      V2.isOwnerOrMember exBoard2 99) ∧
    (¬ V2.isOwnerOrMember exBoard2 99 →
      V2.boardUpdate exStore2 99 1 ⟨some "Renamed", none⟩ =
        (Resp.notFound, exStore2)) :=
  c5_board_access exStore1 99 1 exBoard1 ⟨some "Renamed", none⟩
    exStore2 99 1 exBoard2 ⟨some "Renamed", none⟩ (by decide) (by decide)

/-- C6: in both variants the delete-board operation succeeds exactly for
the board's owner; any other caller is rejected (Forbidden or NotFound)
with the store unchanged; and a successful delete removes the board, every
task whose board it was, and every comment attached to those tasks. -/
theorem c6_board_delete_cascade
    (s1 : V1.Store) (uid1 bid1 : Nat) (b1 : V1.Board)
    (s2 : V2.Store) (uid2 bid2 : Nat) (b2 : V2.Board)
    (h1 : V1.findBoard s1 bid1 = some b1)
    (h2 : V2.findBoard s2 bid2 = some b2) :
    ((V1.boardDestroy s1 uid1 bid1).1 = Resp.noContent ↔
      b1.ownerId = uid1) ∧
    (b1.ownerId ≠ uid1 →
      V1.boardDestroy s1 uid1 bid1 = (Resp.forbidden, s1)) ∧
    (b1.ownerId = uid1 →
      V1.findBoard (V1.boardDestroy s1 uid1 bid1).2 bid1 = none ∧
      (∀ t ∈ (V1.boardDestroy s1 uid1 bid1).2.tasks, t.boardId ≠ bid1) ∧
      (∀ c ∈ (V1.boardDestroy s1 uid1 bid1).2.comments, ∀ t,
        V1.findTask s1 c.taskId = some t → t.boardId ≠ bid1)) ∧
    ((V2.boardDestroy s2 uid2 bid2).1 = Resp.noContent ↔
      b2.ownerId = uid2) ∧
    (b2.ownerId ≠ uid2 →
      ((V2.boardDestroy s2 uid2 bid2).1 = Resp.forbidden ∨
        (V2.boardDestroy s2 uid2 bid2).1 = Resp.notFound) ∧
      (V2.boardDestroy s2 uid2 bid2).2 = s2) ∧
    (b2.ownerId = uid2 →
      V2.findBoard (V2.boardDestroy s2 uid2 bid2).2 bid2 = none ∧
      (∀ t ∈ (V2.boardDestroy s2 uid2 bid2).2.tasks, t.boardId ≠ bid2) ∧
      (∀ c ∈ (V2.boardDestroy s2 uid2 bid2).2.comments, ∀ t,
        V2.findTask s2 c.taskId = some t → t.boardId ≠ bid2)) := by
  refine ⟨?_, ?_, ?_, ?_, ?_, ?_⟩
  · by_cases h : b1.ownerId = uid1 <;> simp [V1.boardDestroy, h1, h]
  · intro h
    simp [V1.boardDestroy, h1, h]
  · intro h
    simp only [V1.boardDestroy, h1, if_neg (not_not_intro h), ne_eq]
    refine ⟨?_, ?_, ?_⟩
    · simp only [V1.findBoard, List.find?_eq_none]
      intro b hb
      rw [List.mem_filter] at hb
      simpa using hb.2
    · intro t ht
      rw [List.mem_filter] at ht
      simpa using ht.2
    · intro c hc t ht hbd
      rw [List.mem_filter] at hc
      rw [ht] at hc
      simp [hbd] at hc
  · by_cases h : b2.ownerId = uid2
    · simp [V2.boardDestroy, h2, h, V2.isOwnerOrMember]
    · by_cases hm : uid2 ∈ b2.memberIds <;>
        simp [V2.boardDestroy, h2, h, hm, V2.isOwnerOrMember]
  · intro h
    by_cases hm : V2.isOwnerOrMember b2 uid2 <;>
      simp [V2.boardDestroy, h2, h, hm]
  · intro h
    have hm : V2.isOwnerOrMember b2 uid2 := Or.inl h
    simp only [V2.boardDestroy, h2, if_neg (not_not_intro hm),
      if_neg (not_not_intro h), ne_eq]
    refine ⟨?_, ?_, ?_⟩
    · simp only [V2.findBoard, List.find?_eq_none]
      intro b hb
      rw [List.mem_filter] at hb
      simpa using hb.2
    · intro t ht
      rw [List.mem_filter] at ht
      simpa using ht.2
    · intro c hc t ht hbd
      rw [List.mem_filter] at hc
      rw [ht] at hc
      simp [hbd] at hc

/-- C6, witness: owner `10` deleting board `1` of each example store (and
the non-owner rejection instantiated vacuously at the owner). -/
theorem c6_board_delete_cascade_witness :
    ((V1.boardDestroy exStore1 10 1).1 = Resp.noContent ↔
      exBoard1.ownerId = 10) ∧
    (exBoard1.ownerId ≠ 10 →
      V1.boardDestroy exStore1 10 1 = (Resp.forbidden, exStore1)) ∧
    (exBoard1.ownerId = 10 →
      V1.findBoard (V1.boardDestroy exStore1 10 1).2 1 = none ∧
      (∀ t ∈ (V1.boardDestroy exStore1 10 1).2.tasks, t.boardId ≠ 1) ∧
      (∀ c ∈ (V1.boardDestroy exStore1 10 1).2.comments, ∀ t,
        V1.findTask exStore1 c.taskId = some t → t.boardId ≠ 1)) ∧
    ((V2.boardDestroy exStore2 10 1).1 = Resp.noContent ↔
      exBoard2.ownerId = 10) ∧
    (exBoard2.ownerId ≠ 10 →
      ((V2.boardDestroy exStore2 10 1).1 = Resp.forbidden ∨
        (V2.boardDestroy exStore2 10 1).1 = Resp.notFound) ∧
      (V2.boardDestroy exStore2 10 1).2 = exStore2) ∧
    (exBoard2.ownerId = 10 →
      V2.findBoard (V2.boardDestroy exStore2 10 1).2 1 = none ∧
      (∀ t ∈ (V2.boardDestroy exStore2 10 1).2.tasks, t.boardId ≠ 1) ∧
      (∀ c ∈ (V2.boardDestroy exStore2 10 1).2.comments, ∀ t,
        V2.findTask exStore2 c.taskId = some t → t.boardId ≠ 1)) :=
  c6_board_delete_cascade exStore1 10 1 exBoard1 exStore2 10 1 exBoard2
    (by decide) (by decide)

/-- C7, counterexample: in the `KanMind_Backend` variant, user `10` owns
both boards; board `2` was created after board `1` (larger id, later
`created_at`), yet the listing returns them in creation order — not
most-recently-created first as the claim requires. -/
theorem c7_board_list_counterexample :
    exBoard2.id < exBoard2b.id ∧
    exBoard2.createdAt < exBoard2b.createdAt ∧
    V2.boardList exStore2 10 = [exBoard2, exBoard2b] ∧
    V2.boardList exStore2 10 ≠ [exBoard2b, exBoard2] := by decide

/-- C7, amended: both variants list exactly the boards whose owner is the
caller or whose member set contains the caller, each board once (for a
duplicate-free table); the `KanMind-Backend` variant orders them by
descending id — most-recently-created first, ids being assigned in
creation order — while the `KanMind_Backend` variant applies no ordering
and returns them in table order. -/
theorem c7_board_list_amended (s1 : V1.Store) (uid1 : Nat)
    (s2 : V2.Store) (uid2 : Nat)
    (hnd1 : s1.boards.Nodup) (hnd2 : s2.boards.Nodup) :
    (∀ b, b ∈ V1.boardList s1 uid1 ↔
      (b ∈ s1.boards ∧ V1.isOwnerOrMember b uid1)) ∧
    (V1.boardList s1 uid1).Nodup ∧
    List.Sorted V1.boardOrder (V1.boardList s1 uid1) ∧
    (∀ b, b ∈ V2.boardList s2 uid2 ↔
      (b ∈ s2.boards ∧ V2.isOwnerOrMember b uid2)) ∧
    (V2.boardList s2 uid2).Nodup ∧
    V2.boardList s2 uid2 =
      s2.boards.filter (fun b => decide (V2.isOwnerOrMember b uid2)) := by
  refine ⟨?_, ?_, ?_, ?_, ?_, rfl⟩
  · intro b
    simp [V1.boardList, List.mem_insertionSort, List.mem_filter]
  · exact (List.perm_insertionSort _ _).nodup_iff.mpr (hnd1.filter _)
  · exact List.sorted_insertionSort _ _
  · intro b
    simp [V2.boardList, List.mem_filter]
  · exact hnd2.filter _

/-- C7, witness for the amended theorem at the example stores, where user
`10` owns both boards. -/
theorem c7_board_list_witness :
    (∀ b, b ∈ V1.boardList exStore1 10 ↔
      (b ∈ exStore1.boards ∧ V1.isOwnerOrMember b 10)) ∧
    (V1.boardList exStore1 10).Nodup ∧
    List.Sorted V1.boardOrder (V1.boardList exStore1 10) ∧
    (∀ b, b ∈ V2.boardList exStore2 10 ↔
      (b ∈ exStore2.boards ∧ V2.isOwnerOrMember b 10)) ∧
    (V2.boardList exStore2 10).Nodup ∧
    V2.boardList exStore2 10 =
      exStore2.boards.filter (fun b => decide (V2.isOwnerOrMember b 10)) :=
  c7_board_list_amended exStore1 10 exStore2 10 (by decide) (by decide)

/-- C8, counterexample: in the `KanMind_Backend` variant, a login for a
registered email with a wrong password fails with the same
`Invalid credentials.` message that an unknown email receives — not a
distinct error saying the password is invalid. -/
theorem c8_login_counterexample :
    (V2.findUserByEmail exStore2 "olivia@kanmind.test").isSome = true ∧
    V2.login exStore2 "olivia@kanmind.test" "wrong-password" =
      V1.LoginResult.invalid "Invalid credentials." ∧
    V2.login exStore2 "absent@kanmind.test" "pw-olivia1" =
      V1.LoginResult.invalid "Invalid credentials." := by decide

/-- C8, amended: in the `KanMind-Backend` variant an unknown email fails
with `Invalid Email.`, a wrong password with the distinct
`Invalid password.`, and a correct login returns the token with the
user's id, email and fullname; in the `KanMind_Backend` variant both
failure cases answer with the same undifferentiated
`Invalid credentials.` message, and a correct login returns the token
with the user's id, email and fullname. -/
theorem c8_login_amended (s1 : V1.Store) (s2 : V2.Store)
    (e1 pw1 e2 pw2 : String) :
    (V1.findUserByEmail s1 e1 = none →
      V1.login s1 e1 pw1 = V1.LoginResult.invalid "Invalid Email.") ∧
    (∀ u, V1.findUserByEmail s1 e1 = some u → u.password ≠ pw1 →
      V1.login s1 e1 pw1 = V1.LoginResult.invalid "Invalid password.") ∧
    (∀ u, V1.findUserByEmail s1 e1 = some u → u.password = pw1 →
      V1.login s1 e1 pw1 = V1.LoginResult.success u.id u.id u.email u.fullName) ∧
    ("Invalid Email." ≠ "Invalid password.") ∧
    (V2.findUserByEmail s2 e2 = none →
      V2.login s2 e2 pw2 = V1.LoginResult.invalid "Invalid credentials.") ∧
    (∀ u, V2.findUserByEmail s2 e2 = some u → u.password ≠ pw2 →
      V2.login s2 e2 pw2 = V1.LoginResult.invalid "Invalid credentials.") ∧
    (∀ u, V2.findUserByEmail s2 e2 = some u → u.password = pw2 →
      V2.login s2 e2 pw2 =
        V1.LoginResult.success u.id u.id u.email u.fullname) := by
  refine ⟨?_, ?_, ?_, by decide, ?_, ?_, ?_⟩
  · intro h
    simp [V1.login, h]
  · intro u hu hpw
    simp [V1.login, hu, V1.checkPassword, hpw]
  · intro u hu hpw
    simp [V1.login, hu, V1.checkPassword, hpw]
  · intro h
    simp [V2.login, h]
  · intro u hu hpw
    simp [V2.login, hu, hpw]
  · intro u hu hpw
    simp [V2.login, hu, hpw]

/-- C8, witness for the amended theorem: registered email with a wrong
password in each variant on the example stores. -/
theorem c8_login_witness :
    (V1.findUserByEmail exStore1 "olivia@kanmind.test" = none →
      V1.login exStore1 "olivia@kanmind.test" "zzz" =
        V1.LoginResult.invalid "Invalid Email.") ∧
    (∀ u, V1.findUserByEmail exStore1 "olivia@kanmind.test" = some u →
      u.password ≠ "zzz" →
      V1.login exStore1 "olivia@kanmind.test" "zzz" =
        V1.LoginResult.invalid "Invalid password.") ∧
    (∀ u, V1.findUserByEmail exStore1 "olivia@kanmind.test" = some u →
      u.password = "zzz" →
      V1.login exStore1 "olivia@kanmind.test" "zzz" =
        V1.LoginResult.success u.id u.id u.email u.fullName) ∧
    ("Invalid Email." ≠ "Invalid password.") ∧
    (V2.findUserByEmail exStore2 "olivia@kanmind.test" = none →
      V2.login exStore2 "olivia@kanmind.test" "zzz" =
        V1.LoginResult.invalid "Invalid credentials.") ∧
    (∀ u, V2.findUserByEmail exStore2 "olivia@kanmind.test" = some u →
      u.password ≠ "zzz" →
      V2.login exStore2 "olivia@kanmind.test" "zzz" =
        V1.LoginResult.invalid "Invalid credentials.") ∧
    (∀ u, V2.findUserByEmail exStore2 "olivia@kanmind.test" = some u →
      u.password = "zzz" →
      V2.login exStore2 "olivia@kanmind.test" "zzz" =
        V1.LoginResult.success u.id u.id u.email u.fullname) :=
  c8_login_amended exStore1 exStore2 "olivia@kanmind.test" "zzz"
    "olivia@kanmind.test" "zzz"

/-- C9: in both variants, a registration whose password differs from
`repeated_password` fails with a ValidationError and writes no user row,
and a registration for an already-registered email fails with a
ValidationError and writes no user row. -/
theorem c9_registration_rejections (s1 : V1.Store) (s2 : V2.Store)
    (r1 r2 : V1.RegistrationRequest) (n1 n2 : Nat) :
    (r1.password ≠ r1.repeatedPassword →
      V1.registration s1 r1 n1 = (Resp.badRequest, s1)) ∧
    ((V1.findUserByEmail s1 r1.email).isSome = true →
      V1.registration s1 r1 n1 = (Resp.badRequest, s1)) ∧
    (r2.password ≠ r2.repeatedPassword →
      V2.registration s2 r2 n2 = (Resp.badRequest, s2)) ∧
    ((V2.findUserByEmail s2 r2.email).isSome = true →
      V2.registration s2 r2 n2 = (Resp.badRequest, s2)) := by
  refine ⟨?_, ?_, ?_, ?_⟩
  · intro h
    unfold V1.registration
    split_ifs <;> rfl
  · intro h
    simp [V1.registration, h]
  · intro h
    unfold V2.registration
    split_ifs <;> rfl
  · intro h
    unfold V2.registration
    split_ifs <;> rfl

/-- C9, witness: a mismatched password pair and a reuse of the registered
email `olivia@kanmind.test` on the example stores. -/
theorem c9_registration_rejections_witness :
    (("secret-one" : String) ≠ "secret-two" →
      V1.registration exStore1
        ⟨"olivia@kanmind.test", "secret-one", "secret-two", "X Y"⟩ 50 =
        (Resp.badRequest, exStore1)) ∧
    ((V1.findUserByEmail exStore1 "olivia@kanmind.test").isSome = true →
      V1.registration exStore1
        ⟨"olivia@kanmind.test", "secret-one", "secret-two", "X Y"⟩ 50 =
        (Resp.badRequest, exStore1)) ∧
    (("secret-one" : String) ≠ "secret-two" →
      V2.registration exStore2
        ⟨"olivia@kanmind.test", "secret-one", "secret-two", "X Y"⟩ 50 =
        (Resp.badRequest, exStore2)) ∧
    ((V2.findUserByEmail exStore2 "olivia@kanmind.test").isSome = true →
      V2.registration exStore2
        ⟨"olivia@kanmind.test", "secret-one", "secret-two", "X Y"⟩ 50 =
        (Resp.badRequest, exStore2)) :=
  c9_registration_rejections exStore1 exStore2
    ⟨"olivia@kanmind.test", "secret-one", "secret-two", "X Y"⟩
    ⟨"olivia@kanmind.test", "secret-one", "secret-two", "X Y"⟩ 50 50

/-- C10, counterexample: the two boards have the same owner `10` and the
same member set `[20, 30]`, yet the first variant's list serializer
reports `2` members while the second variant's model property reports
`3`. -/
theorem c10_member_count_counterexample :
    exBoard1.ownerId = exBoard2.ownerId ∧
    exBoard1.memberIds = exBoard2.memberIds ∧
    V1.getMemberCount exBoard1 = 2 ∧
    V2.memberCount exBoard2 = 3 ∧
    V1.getMemberCount exBoard1 ≠ V2.memberCount exBoard2 := by decide

/-- C10, amended: for boards with the same explicit member set, the second
variant's `member_count` property always exceeds the first variant's list
serializer count by exactly one — it counts the owner on top of the member
set. -/
theorem c10_member_count_amended (b1 : V1.Board) (b2 : V2.Board)
    (h : b1.memberIds = b2.memberIds) :
    V2.memberCount b2 = V1.getMemberCount b1 + 1 := by
  unfold V2.memberCount V1.getMemberCount
  rw [h]

/-- C10, witness for the amended theorem at the example boards. -/
theorem c10_member_count_witness :
    V2.memberCount exBoard2 = V1.getMemberCount exBoard1 + 1 :=
  c10_member_count_amended exBoard1 exBoard2 (by decide)
